import Mathlib

/-!
Shallow embedding of the Transformer-in-Transformer (TNT) image-classification
example (`examples/vision/ipynb/transformer_in_transformer.ipynb`).

The notebook wires Keras/TensorFlow layer calls into a forward pass:
`pixel_embed` → `patch_embed` → a stack of `transformer_in_transformer_block`s
→ classification head (`get_model`).  We embed it at two levels:

* a shape level, in which every framework layer is given its TensorFlow
  static-shape semantics (an `Option (List ℕ)`-valued function, `none` on a
  graph-build shape error), and the notebook functions are the corresponding
  compositions in the `Option` monad;
* a data level, in which rank-3 tensors are `List (List (List ℚ))` and the
  framework kernels (dense, layer norm, attention, dropout, exp) are abstract
  function parameters, while the hand-written tensor plumbing of the notebook
  (reshapes, residual adds, broadcasts, the axis each layer maps over) is
  modelled concretely.
-/

namespace TNT

/-! ### Constants from the notebook (hyperparameter cell) -/

/-- Number of CIFAR-100 classes (`num_classes = 100`). -/
def num_classes : ℕ := 100

/-- Shape of one raw input image, `input_shape = (32, 32, 3)`. -/
def input_shape : List ℕ := [32, 32, 3]

/-- Ceiling division on naturals; models Python `math.ceil(a / b)` for `b > 0`. -/
def ceil_div (a b : ℕ) : ℕ := (a + b - 1) / b

/-! ### Shape semantics of the framework layers used by the notebook -/

/-- Shape rule of `layers.Conv2D(filters, kernel_size=7, strides=stride, padding="same")`
on an NHWC tensor: with SAME padding each spatial dimension becomes
`ceil(dim / stride)` and the channel dimension becomes the filter count
(the kernel size does not affect the output shape). -/
def conv2dSameShape (filters stride : ℕ) : List ℕ → Option (List ℕ)
  | [batch, height, width, _] =>
      some [batch, ceil_div height stride, ceil_div width stride, filters]
  | _ => none

/-- Shape rule of `tf.image.extract_patches` with `sizes = strides = (ph, pw)`,
`rates = 1` and `padding="VALID"`: `⌊h/ph⌋ × ⌊w/pw⌋` patches, each flattened
into `ph*pw*c` feature values. -/
def extractPatchesShape (ph pw : ℕ) : List ℕ → Option (List ℕ)
  | [batch, height, width, channel] =>
      some [batch, height / ph, width / pw, ph * pw * channel]
  | _ => none

/-- Shape rule of `tf.reshape(x, shape=(-1, d1, d2))`: the flattened element
count must be a multiple of `d1*d2` (and `d1*d2` must be nonzero) or graph
building fails; the leading dimension is inferred. -/
def reshapeShape (d1 d2 : ℕ) (s : List ℕ) : Option (List ℕ) :=
  if d1 * d2 ≠ 0 ∧ d1 * d2 ∣ s.prod then some [s.prod / (d1 * d2), d1, d2] else none

/-- Shape rule of `layers.LayerNormalization(epsilon=1e-5)`: identity on shapes. -/
def layerNormShape (s : List ℕ) : Option (List ℕ) := some s

/-- Shape rule of `layers.Dropout(rate)`: identity on shapes. -/
def dropoutShape (s : List ℕ) : Option (List ℕ) := some s

/-- Shape rule of `layers.Dense(units)`: replaces the last dimension by `units`. -/
def denseShape (units : ℕ) : List ℕ → Option (List ℕ)
  | [] => none
  | s => some (s.dropLast ++ [units])

/-- Shape rule of `layers.add([a, b])`: both inputs must have the same shape. -/
def addShape (s1 s2 : List ℕ) : Option (List ℕ) :=
  if s1 = s2 then some s1 else none

/-- Shape rule of `layers.MultiHeadAttention(...)(q, v)` with default output
dimension: the output has the query's shape; the batch dimensions must agree. -/
def mhaShape : List ℕ → List ℕ → Option (List ℕ)
  | [batch, n, d], [batch2, _, _] =>
      if batch = batch2 then some [batch, n, d] else none
  | _, _ => none

/-- Static shape inspection `_, num_patches, channel = x.shape` on a rank-3 tensor. -/
def shapeDim1 : List ℕ → Option ℕ
  | [_, n, _] => some n
  | _ => none

/-- Shape rule of `layers.GlobalAvgPool1D()`: averages out the middle axis. -/
def globalAvgPool1DShape : List ℕ → Option (List ℕ)
  | [batch, _, d] => some [batch, d]
  | _ => none

/-- Shape rule of `PatchEncoder(num_patches, projection_dim)` (notebook class):
`Dense(projection_dim)` followed by broadcast-adding the
`(num_patches, projection_dim)` position-embedding table, which requires the
middle dimension of the input to equal `num_patches`. -/
def patchEncoderShape (num_patches projection_dim : ℕ) : List ℕ → Option (List ℕ)
  | [batch, n, _] => if n = num_patches then some [batch, n, projection_dim] else none
  | _ => none

/-- Shape rule of `data_augmentation`: `Rescaling` preserves the shape,
`Resizing(image_size[0], image_size[1])` sets the spatial dimensions, and the
random flip/rotation/contrast/zoom layers preserve the shape. -/
def data_augmentation_shape (image_size : ℕ × ℕ) : List ℕ → Option (List ℕ)
  | [batch, _, _, channel] => some [batch, image_size.1, image_size.2, channel]
  | _ => none

/-! ### Shape-level embedding of the notebook functions -/

/-- Shape-level embedding of `pixel_embed(x, image_size, patch_size, in_dim, stride)`:
strided SAME convolution, pixel extraction with the stride-derived inner patch
size, reshape to `(-1, num_pixels, in_dim)`, then `PatchEncoder`.  Returns the
pixel-embedding shape together with `num_patches` and `inner_patch_size`,
exactly as the notebook function returns them. -/
def pixel_embed_shape (xs : List ℕ) (image_size patch_size : ℕ × ℕ)
    (in_dim stride : ℕ) : Option (List ℕ × ℕ × (ℕ × ℕ)) := do
  let num_patches := (image_size.1 / patch_size.1) * (image_size.2 / patch_size.2)
  let inner_patch_size := (ceil_div patch_size.1 stride, ceil_div patch_size.2 stride)
  let x1 ← conv2dSameShape in_dim stride xs
  let x2 ← extractPatchesShape inner_patch_size.1 inner_patch_size.2 x1
  let x3 ← reshapeShape (inner_patch_size.1 * inner_patch_size.2) in_dim x2
  let x4 ← patchEncoderShape (inner_patch_size.1 * inner_patch_size.2) in_dim x3
  some (x4, num_patches, inner_patch_size)

/-- Shape-level embedding of
`patch_embed(pixel_embedding, num_patches, outer_dim, inner_dim, num_pixels)`:
reshape to `(-1, num_patches, inner_dim*num_pixels)`, layer norm, dense to
`outer_dim`, layer norm, `PatchEncoder`, dropout. -/
def patch_embed_shape (pixel_embedding : List ℕ)
    (num_patches outer_block_embedding_dim inner_block_embedding_dim num_pixels : ℕ) :
    Option (List ℕ) := do
  let x1 ← reshapeShape num_patches (inner_block_embedding_dim * num_pixels) pixel_embedding
  let x2 ← layerNormShape x1
  let x3 ← denseShape outer_block_embedding_dim x2
  let x4 ← layerNormShape x3
  let x5 ← patchEncoderShape num_patches outer_block_embedding_dim x4
  dropoutShape x5

/-- Shape-level embedding of `mlp(x, hidden_dim, output_dim)`:
dense to `hidden_dim` (gelu), dropout, dense to `output_dim`, dropout. -/
def mlp_shape (x : List ℕ) (hidden_dim output_dim : ℕ) : Option (List ℕ) := do
  let x1 ← denseShape hidden_dim x
  let x2 ← dropoutShape x1
  let x3 ← denseShape output_dim x2
  dropoutShape x3

/-- Shape-level embedding of the inner-transformer half of
`transformer_in_transformer_block` (the `# inner transformer block` lines):
layer norm, self-attention over the pixel tokens, residual add, layer norm,
`mlp`, residual add. -/
def tnt_inner_shape (pixel_embedding : List ℕ)
    (in_embedding_dim mlp_ratio : ℕ) : Option (List ℕ) := do
  let x1 ← layerNormShape pixel_embedding
  let x2 ← mhaShape x1 x1
  let x3 ← addShape x2 pixel_embedding
  let x4 ← layerNormShape x3
  let x5 ← mlp_shape x4 (in_embedding_dim * mlp_ratio) in_embedding_dim
  addShape x5 x3

/-- Shape-level embedding of `transformer_in_transformer_block`: the inner
transformer on the pixel stream, then fusion (reshape per patch, layer norm,
dense to `out_embedding_dim`, add into the patch stream), then the outer
transformer on the patch stream.  `num_patches` is read from the static shape
of `patch_embedding`, as in the source. -/
def transformer_in_transformer_block_shape
    (pixel_embedding patch_embedding : List ℕ)
    (out_embedding_dim in_embedding_dim num_pixels mlp_ratio : ℕ) :
    Option (List ℕ × List ℕ) := do
  let pixel_out ← tnt_inner_shape pixel_embedding in_embedding_dim mlp_ratio
  let num_patches ← shapeDim1 patch_embedding
  let f1 ← reshapeShape num_patches (in_embedding_dim * num_pixels) pixel_out
  let f2 ← layerNormShape f1
  let f3 ← denseShape out_embedding_dim f2
  let p1 ← addShape patch_embedding f3
  let p2 ← layerNormShape p1
  let p3 ← mhaShape p2 p2
  let p4 ← addShape p3 p1
  let p5 ← layerNormShape p4
  let p6 ← mlp_shape p5 (out_embedding_dim * mlp_ratio) out_embedding_dim
  let patch_out ← addShape p6 p4
  some (pixel_out, patch_out)

/-- Shape-level embedding of the TNT-block loop in `get_model`
(`for _ in range(num_transformer_layer): ...`). -/
def tnt_stack_shape (n : ℕ) (out_embedding_dim in_embedding_dim num_pixels mlp_ratio : ℕ)
    (s : List ℕ × List ℕ) : Option (List ℕ × List ℕ) :=
  match n with
  | 0 => some s
  | n + 1 =>
      (transformer_in_transformer_block_shape s.1 s.2
          out_embedding_dim in_embedding_dim num_pixels mlp_ratio).bind
        (tnt_stack_shape n out_embedding_dim in_embedding_dim num_pixels mlp_ratio)

/-- Shape-level embedding of `get_model(...)`: input of `input_shape`,
augmentation (resizing to `image_size`), `pixel_embed`, `patch_embed`, the TNT
block loop, final layer norm, global average pooling and the
`Dense(num_classes, activation="softmax")` head. -/
def get_model_shape (batch : ℕ) (image_size patch_size : ℕ × ℕ)
    (outer_block_embedding_dim inner_block_embedding_dim num_transformer_layer
      mlp_ratio first_stride : ℕ) : Option (List ℕ) := do
  let inputs := batch :: input_shape
  let x ← data_augmentation_shape image_size inputs
  let (pe, num_patches, inner_patch_size) ←
    pixel_embed_shape x image_size patch_size inner_block_embedding_dim first_stride
  let num_pixels := inner_patch_size.1 * inner_patch_size.2
  let pa ← patch_embed_shape pe num_patches outer_block_embedding_dim
    inner_block_embedding_dim num_pixels
  let (_, pa2) ← tnt_stack_shape num_transformer_layer outer_block_embedding_dim
    inner_block_embedding_dim num_pixels mlp_ratio (pe, pa)
  let pa3 ← layerNormShape pa2
  let pooled ← globalAvgPool1DShape pa3
  denseShape num_classes pooled

/-! ### Data-level embedding

Rank-3 tensors are nested lists over `ℚ`; a framework layer with learned
weights is an abstract kernel recorded in a parameter structure, and the
notebook functions apply those kernels over exactly the axes the TensorFlow
layers operate on: `LayerNormalization(axis=-1)`, `Dense` and `Dropout` map
over every token vector, while `MultiHeadAttention` acts independently on each
element of the leading (batch) axis, attending across the middle axis. -/

/-- Rank-3 tensor: leading (batch) axis, token axis, feature axis. -/
abbrev Tensor3 : Type := List (List (List ℚ))

/-- Apply a per-token kernel (dense / layer norm / dropout) over a rank-3 tensor. -/
def map2 (f : List ℚ → List ℚ) (t : Tensor3) : Tensor3 :=
  t.map fun rows => rows.map f

/-- Elementwise addition of two rank-2 tensors (`layers.add` on matching shapes). -/
def add2 (a b : List (List ℚ)) : List (List ℚ) :=
  List.zipWith (List.zipWith (· + ·)) a b

/-- Elementwise addition of two rank-3 tensors (`layers.add([x, y])`). -/
def add3 (a b : Tensor3) : Tensor3 :=
  List.zipWith add2 a b

/-- Fuel-driven grouping of a flat list into consecutive chunks of `n` elements;
the fuel is the list length so the recursion is structural. -/
def chunksAux {α : Type} : ℕ → ℕ → List α → List (List α)
  | 0, _, _ => []
  | _ + 1, _, [] => []
  | fuel + 1, n, l => l.take n :: chunksAux fuel n (l.drop n)

/-- Group a flat list into consecutive chunks of `n` elements. -/
def chunks {α : Type} (n : ℕ) (l : List α) : List (List α) :=
  chunksAux l.length n l

/-- Data semantics of `tf.reshape(x, shape=(-1, d1, d2))` on a rank-3 tensor:
flatten in row-major order, regroup into rows of `d2` values and batches of
`d1` rows. -/
def reshape3 (d1 d2 : ℕ) (t : Tensor3) : Tensor3 :=
  chunks d1 (chunks d2 t.flatten.flatten)

/-- Data semantics of `PatchEncoder(num_patches, projection_dim).call` (notebook
cell 11): `self.projection(patch) + self.position_embedding(positions)` with
`positions = tf.range(num_patches)`, i.e. the learned position table — a
`(num_patches, projection_dim)` matrix — is broadcast-added over the batch axis
to the `Dense` projection of the input. -/
def PatchEncoder_call (projection : List ℚ → List ℚ)
    (position_table : List (List ℚ)) (patch : Tensor3) : Tensor3 :=
  patch.map fun rows => add2 (rows.map projection) position_table

/-- Abstract kernels of the two `Dense` and two `Dropout` layers created by one
call of `mlp`; the `Dense` kernels are indexed by their unit count and the
`Dropout` kernels by their rate. -/
structure MlpParams : Type where
  dense1 : ℕ → List ℚ → List ℚ
  drop1 : ℚ → List ℚ → List ℚ
  dense2 : ℕ → List ℚ → List ℚ
  drop2 : ℚ → List ℚ → List ℚ

/-- Data-level embedding of `mlp(x, hidden_dim, output_dim, drop_rate=0.2)`:
dense to `hidden_dim` (gelu folded into the kernel), dropout, dense to
`output_dim`, dropout; the drop rate defaults to `0.2` as in the source. -/
def mlp_data (p : MlpParams) (x : Tensor3) (hidden_dim output_dim : ℕ)
    (drop_rate : ℚ := 2/10) : Tensor3 :=
  let x1 := map2 (p.dense1 hidden_dim) x
  let x2 := map2 (p.drop1 drop_rate) x1
  let x3 := map2 (p.dense2 output_dim) x2
  map2 (p.drop2 drop_rate) x3

/-- Abstract kernels of the layers created by one call of
`transformer_in_transformer_block`, in order of creation: the attention kernels
are indexed by `(num_heads, key_dim, dropout)` exactly as the layer
constructors are, and act on one leading-axis element (TensorFlow
`MultiHeadAttention` attends within each batch element independently). -/
structure TNTBlockParams : Type where
  ln_in_1 : List ℚ → List ℚ
  attn_in : ℕ → ℕ → ℚ → List (List ℚ) → List (List ℚ)
  ln_in_2 : List ℚ → List ℚ
  mlp_in : MlpParams
  ln_fuse : List ℚ → List ℚ
  dense_fuse : ℕ → List ℚ → List ℚ
  ln_out_1 : List ℚ → List ℚ
  attn_out : ℕ → ℕ → ℚ → List (List ℚ) → List (List ℚ)
  ln_out_2 : List ℚ → List ℚ
  mlp_out : MlpParams

/-- Data-level embedding of the `# inner transformer block` lines of
`transformer_in_transformer_block`: layer norm, multi-head self-attention over
the pixel tokens of each leading-axis group, residual add, layer norm, `mlp`
(with its default drop rate), residual add. -/
def tnt_inner (p : TNTBlockParams) (in_embedding_dim in_num_heads mlp_ratio : ℕ)
    (attention_dropout : ℚ) (pixel_embedding : Tensor3) : Tensor3 :=
  let residual_in_1 := pixel_embedding
  let x1 := map2 p.ln_in_1 pixel_embedding
  let x2 := x1.map (p.attn_in in_num_heads in_embedding_dim attention_dropout)
  let x3 := add3 x2 residual_in_1
  let residual_in_2 := x3
  let x4 := map2 p.ln_in_2 x3
  let x5 := mlp_data p.mlp_in x4 (in_embedding_dim * mlp_ratio) in_embedding_dim
  add3 x5 residual_in_2

/-- Data-level embedding of the `# outer transformer block` lines of
`transformer_in_transformer_block`: fuse the refined pixel embedding into the
patch stream (reshape per patch, layer norm, dense to `out_embedding_dim`,
elementwise add), then layer norm, self-attention over the patch tokens,
residual add, layer norm, `mlp`, residual add. -/
def tnt_outer (p : TNTBlockParams)
    (out_embedding_dim num_patches num_pixels in_embedding_dim out_num_heads
      mlp_ratio : ℕ) (attention_dropout : ℚ)
    (pixel_embedding patch_embedding : Tensor3) : Tensor3 :=
  let fused := reshape3 num_patches (in_embedding_dim * num_pixels) pixel_embedding
  let f1 := map2 p.ln_fuse fused
  let f2 := map2 (p.dense_fuse out_embedding_dim) f1
  let q0 := add3 patch_embedding f2
  let residual_out_1 := q0
  let q1 := map2 p.ln_out_1 q0
  let q2 := q1.map (p.attn_out out_num_heads out_embedding_dim attention_dropout)
  let q3 := add3 q2 residual_out_1
  let residual_out_2 := q3
  let q4 := map2 p.ln_out_2 q3
  let q5 := mlp_data p.mlp_out q4 (out_embedding_dim * mlp_ratio) out_embedding_dim
  add3 q5 residual_out_2

/-- Data-level embedding of `transformer_in_transformer_block` with the source's
argument list.  `num_patches` is read from the patch embedding's middle
dimension (`_, num_patches, channel = patch_embedding.shape`);
`projection_dropout` is accepted exactly as in the source. -/
def transformer_in_transformer_block_data (p : TNTBlockParams)
    (pixel_embedding patch_embedding : Tensor3)
    (out_embedding_dim in_embedding_dim num_pixels out_num_heads in_num_heads
      mlp_ratio : ℕ) (attention_dropout projection_dropout : ℚ) :
    Tensor3 × Tensor3 :=
  let pixel_out :=
    tnt_inner p in_embedding_dim in_num_heads mlp_ratio attention_dropout
      pixel_embedding
  let num_patches := (patch_embedding.headD []).length
  let patch_out :=
    tnt_outer p out_embedding_dim num_patches num_pixels in_embedding_dim
      out_num_heads mlp_ratio attention_dropout pixel_out patch_embedding
  (pixel_out, patch_out)

/-- One step of the TNT-block loop of `get_model`: apply one block, with its own
parameters, to the threaded `(pixel_embedding, patch_embedding)` pair. -/
def tnt_block_step
    (out_embedding_dim in_embedding_dim num_pixels out_num_heads in_num_heads
      mlp_ratio : ℕ) (attention_dropout projection_dropout : ℚ)
    (s : Tensor3 × Tensor3) (p : TNTBlockParams) : Tensor3 × Tensor3 :=
  transformer_in_transformer_block_data p s.1 s.2 out_embedding_dim
    in_embedding_dim num_pixels out_num_heads in_num_heads mlp_ratio
    attention_dropout projection_dropout

/-- Data-level embedding of the TNT-block loop of `get_model`
(`for _ in range(num_transformer_layer): pixel_embedding, patch_embedding = ...`),
with one `TNTBlockParams` per created block. -/
def tnt_stack (ps : List TNTBlockParams)
    (out_embedding_dim in_embedding_dim num_pixels out_num_heads in_num_heads
      mlp_ratio : ℕ) (attention_dropout projection_dropout : ℚ)
    (s : Tensor3 × Tensor3) : Tensor3 × Tensor3 :=
  ps.foldl
    (tnt_block_step out_embedding_dim in_embedding_dim num_pixels out_num_heads
      in_num_heads mlp_ratio attention_dropout projection_dropout) s

/-- Per-group form of the inner transformer step: the computation applied to the
`num_pixels × in_dim` token matrix of a single leading-axis group (one patch of
one image). -/
def tnt_inner_group (p : TNTBlockParams)
    (in_embedding_dim in_num_heads mlp_ratio : ℕ) (attention_dropout : ℚ)
    (g : List (List ℚ)) : List (List ℚ) :=
  let x1 := g.map p.ln_in_1
  let x2 := p.attn_in in_num_heads in_embedding_dim attention_dropout x1
  let x3 := add2 x2 g
  let x4 := x3.map p.ln_in_2
  let x5 := (((x4.map (p.mlp_in.dense1 (in_embedding_dim * mlp_ratio))).map
      (p.mlp_in.drop1 (2/10))).map (p.mlp_in.dense2 in_embedding_dim)).map
      (p.mlp_in.drop2 (2/10))
  add2 x5 x3

/-- Abstract kernels of the layers created by one call of `patch_embed`, in
order of creation; `enc_projection` and `enc_position_table` are the `Dense`
kernel and learned position table of the `PatchEncoder` it instantiates. -/
structure PatchEmbedParams : Type where
  ln1 : List ℚ → List ℚ
  dense : ℕ → List ℚ → List ℚ
  ln2 : List ℚ → List ℚ
  enc_projection : List ℚ → List ℚ
  enc_position_table : List (List ℚ)
  drop : ℚ → List ℚ → List ℚ

/-- Data-level embedding of
`patch_embed(pixel_embedding, num_patches, outer_dim, inner_dim, num_pixels)`:
reshape to `(-1, num_patches, inner_dim*num_pixels)`, layer norm, dense to
`outer_dim`, layer norm, `PatchEncoder` (its own dense projection plus the
position table), dropout at the global `projection_dropout` rate. -/
def patch_embed_data (p : PatchEmbedParams) (pixel_embedding : Tensor3)
    (num_patches outer_block_embedding_dim inner_block_embedding_dim
      num_pixels : ℕ) (projection_dropout : ℚ) : Tensor3 :=
  let x1 := reshape3 num_patches (inner_block_embedding_dim * num_pixels)
    pixel_embedding
  let x2 := map2 p.ln1 x1
  let x3 := map2 (p.dense outer_block_embedding_dim) x2
  let x4 := map2 p.ln2 x3
  let x5 := PatchEncoder_call p.enc_projection p.enc_position_table x4
  map2 (p.drop projection_dropout) x5

/-- Modelled from the spec (section 4.2 / C6), for comparison with
`patch_embed_data`: the same pipeline but with the position-encoding step taken
literally as a pure elementwise addition of the learned table to the second
normalization's output, with no further transformation in between. -/
def patch_embed_specModel (p : PatchEmbedParams) (pixel_embedding : Tensor3)
    (num_patches outer_block_embedding_dim inner_block_embedding_dim
      num_pixels : ℕ) (projection_dropout : ℚ) : Tensor3 :=
  let x1 := reshape3 num_patches (inner_block_embedding_dim * num_pixels)
    pixel_embedding
  let x2 := map2 p.ln1 x1
  let x3 := map2 (p.dense outer_block_embedding_dim) x2
  let x4 := map2 p.ln2 x3
  let x5 := x4.map fun rows => add2 rows p.enc_position_table
  map2 (p.drop projection_dropout) x5

/-- Data semantics of the classification head of `get_model`
(`layers.Dense(num_classes, activation="softmax")` applied to the pooled
patch representation): `softmax e v` normalizes the exponentiated scores,
with the framework exponential abstracted as a kernel `e`. -/
def softmax (e : ℚ → ℚ) (v : List ℚ) : List ℚ :=
  v.map fun x => e x / (v.map e).sum

/-- Data-level embedding of the classification head of `get_model`: per image
row of the pooled `(batch, outer_dim)` tensor, the dense layer's affine map
(abstract kernel `logits`, with `num_classes` output units) followed by the
softmax activation. -/
def classification_head (e : ℚ → ℚ) (logits : List ℚ → List ℚ)
    (x : List (List ℚ)) : List (List ℚ) :=
  x.map fun v => softmax e (logits v)

/-- Concrete block parameters with identity kernels, used to instantiate
hypotheses of the locality theorem at a checkable input. -/
def idBlockParams : TNTBlockParams where
  ln_in_1 := fun v => v
  attn_in := fun _ _ _ g => g
  ln_in_2 := fun v => v
  mlp_in := ⟨fun _ v => v, fun _ v => v, fun _ v => v, fun _ v => v⟩
  ln_fuse := fun v => v
  dense_fuse := fun _ v => v
  ln_out_1 := fun v => v
  attn_out := fun _ _ _ g => g
  ln_out_2 := fun v => v
  mlp_out := ⟨fun _ v => v, fun _ v => v, fun _ v => v, fun _ v => v⟩

/-- Concrete `patch_embed` parameters whose `PatchEncoder` projection doubles
every feature, with all other kernels the identity and a zero position table. -/
def doublingPatchParams : PatchEmbedParams where
  ln1 := fun v => v
  dense := fun _ v => v
  ln2 := fun v => v
  enc_projection := fun v => v.map fun q => 2 * q
  enc_position_table := [[0]]
  drop := fun _ v => v

/-! ### Theorems -/

/-- Inversion lemma for `pixel_embed_shape`: a successful build determines the
returned `num_patches` and inner patch geometry by the closed-form expressions
of the source, and the pixel-embedding shape is rank 3 with last dimension the
configured inner dimension. -/
theorem pixel_embed_shape_eq_some (xs : List ℕ) (isz psz : ℕ × ℕ) (d st : ℕ)
    (s : List ℕ) (np : ℕ) (g : ℕ × ℕ)
    (h : pixel_embed_shape xs isz psz d st = some (s, np, g)) :
    np = (isz.1 / psz.1) * (isz.2 / psz.2) ∧
      g = (ceil_div psz.1 st, ceil_div psz.2 st) ∧ ∃ a b, s = [a, b, d] := by
  rcases xs with _ | ⟨a, _ | ⟨b, _ | ⟨c, _ | ⟨e, _ | ⟨f, t⟩⟩⟩⟩⟩ <;>
    simp only [pixel_embed_shape, conv2dSameShape, extractPatchesShape,
      reshapeShape, patchEncoderShape, Option.pure_def, Option.bind_eq_bind,
      Option.bind_eq_some, Option.some.injEq, reduceCtorEq, false_and,
      exists_false, exists_eq_left'] at h
  obtain ⟨x3, hx3, x4, hx4, hfin⟩ := h
  split at hx3
  · obtain rfl := Option.some.inj hx3
    simp only [eq_self_iff_true, if_true, Option.some.injEq] at hx4
    subst hx4
    simp only [Prod.mk.injEq] at hfin
    obtain ⟨hs, hnp, hg⟩ := hfin
    exact ⟨hnp.symm, hg.symm, _, _, hs.symm⟩
  · exact absurd hx3 (by simp)

/-- C1: for every image size and patch size where the image height and width
are exactly divisible by the patch height and width, the `num_patches` value
returned by `pixel_embed` equals `(image_h/patch_h) * (image_w/patch_w)` as an
exact rational quotient, independent of the input tensor, the stride and the
inner dimension (two arbitrary calls agree). -/
theorem pixel_embed_num_patches_exact
    (xs xs' : List ℕ) (ih iw ph pw d d' st st' : ℕ)
    (hph : 0 < ph) (hpw : 0 < pw) (hdh : ph ∣ ih) (hdw : pw ∣ iw)
    (s s' : List ℕ) (np np' : ℕ) (g g' : ℕ × ℕ)
    (h : pixel_embed_shape xs (ih, iw) (ph, pw) d st = some (s, np, g))
    (h' : pixel_embed_shape xs' (ih, iw) (ph, pw) d' st' = some (s', np', g')) :
    np = np' ∧ (np : ℚ) = (ih : ℚ) / (ph : ℚ) * ((iw : ℚ) / (pw : ℚ)) := by
  obtain ⟨hnp, -, -⟩ := pixel_embed_shape_eq_some _ _ _ _ _ _ _ _ h
  obtain ⟨hnp', -, -⟩ := pixel_embed_shape_eq_some _ _ _ _ _ _ _ _ h'
  constructor
  · rw [hnp, hnp']
  · rw [hnp]
    rw [Nat.cast_mul,
      Nat.cast_div hdh (Nat.cast_ne_zero.mpr hph.ne' : ((ph : ℚ) ≠ 0)),
      Nat.cast_div hdw (Nat.cast_ne_zero.mpr hpw.ne' : ((pw : ℚ) ≠ 0))]

/-- Witness for C1 at two concrete calls: image 32×32, patch 8×8, once with
inner dimension 48 and stride 4 on a batch of 2, once with inner dimension 16
and stride 2 on a batch of 5; both return `num_patches = 16 = (32/8)²`. -/
theorem pixel_embed_num_patches_exact_witness :
    (16 : ℕ) = 16 ∧ ((16 : ℕ) : ℚ) = (32 : ℚ) / (8 : ℚ) * ((32 : ℚ) / (8 : ℚ)) :=
  pixel_embed_num_patches_exact [2, 32, 32, 3] [5, 64, 64, 3] 32 32 8 8 48 16 4 2
    (by decide) (by decide) (by decide) (by decide)
    [32, 4, 48] [320, 16, 16] 16 16 (2, 2) (4, 4) (by decide) (by decide)

/-- C2: the pixel embedding returned by `pixel_embed` has rank 3 with last
dimension the configured inner dimension, for every input and batch size; and
for a batch of 2 images of size 32×32×3 with `patch_size = (8,8)` and
`stride = 4` its shape is `(2*16, 4, in_dim)` with `16 = (32/8)²`,
`num_patches = 16` and inner patch geometry `(2, 2) = (⌈8/4⌉, ⌈8/4⌉)` obtained
by ceiling division of patch size by stride. -/
theorem pixel_embed_output_shape (d : ℕ) (hd : 0 < d) :
    (∀ (xs : List ℕ) (isz psz : ℕ × ℕ) (st : ℕ) (s : List ℕ) (np : ℕ)
        (g : ℕ × ℕ), pixel_embed_shape xs isz psz d st = some (s, np, g) →
        ∃ a b, s = [a, b, d]) ∧
    pixel_embed_shape [2, 32, 32, 3] (32, 32) (8, 8) d 4 =
      some ([2 * 16, ceil_div 8 4 * ceil_div 8 4, d], 16, (2, 2)) := by
  constructor
  · exact fun xs isz psz st s np g h =>
      (pixel_embed_shape_eq_some xs isz psz d st s np g h).2.2
  · have h32 : 128 * d / (4 * d) = 32 := by
      rw [show 128 * d = 32 * (4 * d) by ring, Nat.mul_div_cancel _ (by positivity)]
    simp only [pixel_embed_shape, conv2dSameShape, extractPatchesShape,
      reshapeShape, patchEncoderShape, ceil_div, Option.pure_def,
      Option.bind_eq_bind, Option.some_bind]
    norm_num
    rw [if_pos ⟨hd.ne', 32, by ring⟩,
      show 2 * (4 * (4 * (4 * d))) = 128 * d by ring, h32]
    norm_num

/-- Witness for C2 at the notebook's inner dimension 32: the pixel embedding of
a batch of 2 synthetic 32×32×3 images with patch size (8,8) and stride 4 has
shape `(2*16, 4, 32)`. -/
theorem pixel_embed_output_shape_witness :
    pixel_embed_shape [2, 32, 32, 3] (32, 32) (8, 8) 32 4 =
      some ([2 * 16, ceil_div 8 4 * ceil_div 8 4, 32], 16, (2, 2)) :=
  (pixel_embed_output_shape 32 (by decide)).2

/-- C3: a TNT block preserves the shapes of both of its inputs: for every
mutually consistent configuration — pixel embedding of shape
`(batch*num_patches, num_pixels, inner_dim)`, patch embedding of shape
`(batch, num_patches, outer_dim)` — `transformer_in_transformer_block`
returns a pair with exactly the input shapes. -/
theorem tnt_block_shape_preservation
    (b np npx id od mr : ℕ) (hnp : 0 < np) (hnpx : 0 < npx) (hid : 0 < id) :
    transformer_in_transformer_block_shape [b * np, npx, id] [b, np, od]
        od id npx mr =
      some ([b * np, npx, id], [b, np, od]) := by
  have hq : b * np * (npx * id) / (np * (id * npx)) = b := by
    rw [show b * np * (npx * id) = b * (np * (id * npx)) by ring,
      Nat.mul_div_cancel _ (by positivity)]
  simp only [transformer_in_transformer_block_shape, tnt_inner_shape, mlp_shape,
    layerNormShape, mhaShape, addShape, shapeDim1, reshapeShape, denseShape,
    dropoutShape, Option.pure_def, Option.bind_eq_bind, Option.some_bind]
  norm_num
  rw [if_pos ⟨⟨hnp.ne', hid.ne', hnpx.ne'⟩, b, by ring⟩, hq]
  norm_num

/-- Witness for C3 at the configuration
`(num_patches, num_pixels, inner_dim, outer_dim) = (144, 4, 32, 64)` with
batch size 2 and `mlp_ratio = 4`. -/
theorem tnt_block_shape_preservation_witness :
    transformer_in_transformer_block_shape [2 * 144, 4, 32] [2, 144, 64]
        64 32 4 4 =
      some ([2 * 144, 4, 32], [2, 144, 64]) :=
  tnt_block_shape_preservation 2 144 4 32 64 4 (by decide) (by decide) (by decide)

/-- C4: the block loop of `get_model` is iterated application of the
single-block transform: a 2-block stack equals two sequential single-block
calls on the threaded `(pixel embedding, patch embedding)` pair with the
per-block parameters, and in general stacking a concatenation of block lists
is sequential composition of the stacks. -/
theorem tnt_stack_is_iterated_block
    (od id npx oh ih mr : ℕ) (ad pd : ℚ) :
    (∀ (p1 p2 : TNTBlockParams) (s : Tensor3 × Tensor3),
      tnt_stack [p1, p2] od id npx oh ih mr ad pd s =
        transformer_in_transformer_block_data p2
          (transformer_in_transformer_block_data p1 s.1 s.2
            od id npx oh ih mr ad pd).1
          (transformer_in_transformer_block_data p1 s.1 s.2
            od id npx oh ih mr ad pd).2
          od id npx oh ih mr ad pd) ∧
    (∀ (ps qs : List TNTBlockParams) (s : Tensor3 × Tensor3),
      tnt_stack (ps ++ qs) od id npx oh ih mr ad pd s =
        tnt_stack qs od id npx oh ih mr ad pd
          (tnt_stack ps od id npx oh ih mr ad pd s)) := by
  refine ⟨fun p1 p2 s => rfl, fun ps qs s => ?_⟩
  simp [tnt_stack, List.foldl_append]

/-- C9: the output of `transformer_in_transformer_block` is independent of its
`projection_dropout` argument: with all other arguments, inputs and parameters
equal, any two values of the argument give identical results (the argument is
accepted but never used; the feed-forward sublayers run `mlp` at its fixed
default drop rate). -/
theorem tnt_block_projection_dropout_unused (p : TNTBlockParams)
    (pe pa : Tensor3) (od id npx oh ih mr : ℕ) (ad a b : ℚ) :
    transformer_in_transformer_block_data p pe pa od id npx oh ih mr ad a =
      transformer_in_transformer_block_data p pe pa od id npx oh ih mr ad b :=
  rfl

/-- C10: the pixel embedding returned by `transformer_in_transformer_block` is
exactly the result of the inner transformer step; the fusion and outer
transformer steps read it but never modify it, so it does not depend on the
patch-embedding input at all. -/
theorem tnt_block_pixel_stream_frame (p : TNTBlockParams)
    (pe pa pa' : Tensor3) (od id npx oh ih mr : ℕ) (ad pd pd' : ℚ) :
    (transformer_in_transformer_block_data p pe pa od id npx oh ih mr ad pd).1 =
      tnt_inner p id ih mr ad pe ∧
    (transformer_in_transformer_block_data p pe pa od id npx oh ih mr ad pd).1 =
      (transformer_in_transformer_block_data p pe pa' od id npx oh ih mr ad pd').1 :=
  ⟨rfl, rfl⟩

/-- Distributing a division over a list sum. -/
theorem sum_map_div (l : List ℚ) (c : ℚ) :
    (l.map fun x => x / c).sum = l.sum / c := by
  induction l with
  | nil => simp
  | cons a t ih => simp [ih, add_div]

/-- C5: the classification head's output is a valid probability distribution
per image: with the framework exponential strictly positive and the dense
layer producing `num_classes` scores, every component of every image row lies
in `[0, 1]` and each row sums to 1 within the tolerance `1e-5` (exactly 1 in
exact arithmetic). -/
theorem classification_head_prob_dist (e : ℚ → ℚ) (logits : List ℚ → List ℚ)
    (he : ∀ t, 0 < e t) (hl : ∀ v, (logits v).length = num_classes)
    (x : List (List ℚ)) (row : List ℚ)
    (hrow : row ∈ classification_head e logits x) :
    (∀ y ∈ row, 0 ≤ y ∧ y ≤ 1) ∧ |row.sum - 1| ≤ 1 / 100000 := by
  simp only [classification_head, List.mem_map] at hrow
  obtain ⟨v, -, hv⟩ := hrow
  subst hv
  set w := logits v with hw
  have hwne : w ≠ [] := by
    intro hnil
    have hlen := hl v
    rw [← hw, hnil] at hlen
    simp [num_classes] at hlen
  have hspos : 0 < (w.map e).sum := by
    apply List.sum_pos
    · intro y hy
      obtain ⟨t, -, ht⟩ := List.mem_map.mp hy
      exact ht ▸ he t
    · simpa using hwne
  constructor
  · intro y hy
    obtain ⟨t, htw, ht⟩ := List.mem_map.mp hy
    subst ht
    refine ⟨div_nonneg (he t).le hspos.le, ?_⟩
    rw [div_le_one hspos]
    refine List.single_le_sum (fun y hy => ?_) _ (List.mem_map_of_mem e htw)
    obtain ⟨u, -, hu⟩ := List.mem_map.mp hy
    exact hu ▸ (he u).le
  · have hmap : (w.map fun x => e x / (w.map e).sum) =
        (w.map e).map fun x => x / (w.map e).sum := by
      rw [List.map_map]
      rfl
    simp only [softmax]
    rw [hmap, sum_map_div, div_self hspos.ne']
    norm_num

/-- Witness for C5: with the exponential kernel constantly 1 and zero scores
for 100 classes, the head's row is 100 copies of 1/100; the theorem yields
that each entry lies in `[0, 1]` and the row sums to 1 within `1e-5`. -/
theorem classification_head_prob_dist_witness :
    ((0 : ℚ) ≤ 1 / 100 ∧ (1 : ℚ) / 100 ≤ 1) ∧
      |(List.replicate 100 ((1 : ℚ) / 100)).sum - 1| ≤ 1 / 100000 := by
  have h := classification_head_prob_dist (fun _ => 1)
    (fun _ => List.replicate 100 0) (fun t => one_pos)
    (fun v => by simp [num_classes]) [[0]] (List.replicate 100 ((1 : ℚ) / 100))
    (by
      simp [classification_head, softmax, List.map_replicate, List.sum_replicate]
      norm_num)
  exact ⟨h.1 (1 / 100) (List.mem_replicate.mpr ⟨by norm_num, rfl⟩), h.2⟩

/-- Zipping a mapped list with the original list is a single map. -/
theorem zipWith_map_left_self {α β γ : Type} (f : β → α → γ) (g : α → β)
    (l : List α) : List.zipWith f (l.map g) l = l.map fun x => f (g x) x := by
  induction l with
  | nil => rfl
  | cons a t ih => simp [ih]

/-- Zipping two maps of the same list is a single map. -/
theorem zipWith_map_map {α β γ δ : Type} (f : β → γ → δ) (g : α → β)
    (h : α → γ) (l : List α) :
    List.zipWith f (l.map g) (l.map h) = l.map fun x => f (g x) (h x) := by
  induction l with
  | nil => rfl
  | cons a t ih => simp [ih]

/-- The inner transformer step acts independently on each leading-axis group:
it is the map of its per-group computation over the leading dimension. -/
theorem tnt_inner_eq_map (p : TNTBlockParams) (id ih mr : ℕ) (ad : ℚ)
    (pe : Tensor3) :
    tnt_inner p id ih mr ad pe = pe.map (tnt_inner_group p id ih mr ad) := by
  simp only [tnt_inner, map2, add3, mlp_data, List.map_map,
    zipWith_map_left_self, zipWith_map_map]
  congr 1

/-- C7: in the inner transformer step of a TNT block, self-attention runs over
the pixel tokens within each patch only: the refined pixel embedding at
leading-axis group `i` (one patch of one image, since the `batch*num_patches`
grouping is the leading dimension) is a function of that group's own tokens
and the block parameters alone — two inputs agreeing at group `i` produce the
same refined group `i`, whatever their other patches, batch elements, or patch
embeddings are. -/
theorem tnt_block_inner_attention_local (p : TNTBlockParams)
    (pe pe' pa pa' : Tensor3) (od id npx oh ih mr : ℕ) (ad pd pd' : ℚ) (i : ℕ)
    (h : pe[i]? = pe'[i]?) :
    (transformer_in_transformer_block_data p pe pa
        od id npx oh ih mr ad pd).1[i]? =
      (pe[i]?).map (tnt_inner_group p id ih mr ad) ∧
    (transformer_in_transformer_block_data p pe pa
        od id npx oh ih mr ad pd).1[i]? =
      (transformer_in_transformer_block_data p pe' pa'
        od id npx oh ih mr ad pd').1[i]? := by
  have hmap : (transformer_in_transformer_block_data p pe pa
      od id npx oh ih mr ad pd).1 = pe.map (tnt_inner_group p id ih mr ad) :=
    tnt_inner_eq_map p id ih mr ad pe
  have hmap' : (transformer_in_transformer_block_data p pe' pa'
      od id npx oh ih mr ad pd').1 = pe'.map (tnt_inner_group p id ih mr ad) :=
    tnt_inner_eq_map p id ih mr ad pe'
  rw [hmap, hmap', List.getElem?_map, List.getElem?_map, h]
  exact ⟨rfl, rfl⟩

/-- Witness for C7: two pixel-embedding tensors that agree on their first
group but differ elsewhere (and arbitrary distinct patch embeddings) produce
the same refined first group under a block with identity kernels. -/
theorem tnt_block_inner_attention_local_witness :
    (transformer_in_transformer_block_data idBlockParams [[[1]], [[2]]] [[[5]]]
        1 1 1 1 1 1 0 0).1[0]? =
      (([[[1]], [[2]]] : Tensor3)[0]?).map
        (tnt_inner_group idBlockParams 1 1 1 0) ∧
    (transformer_in_transformer_block_data idBlockParams [[[1]], [[2]]] [[[5]]]
        1 1 1 1 1 1 0 0).1[0]? =
      (transformer_in_transformer_block_data idBlockParams [[[1]], [[3]]] [[[7]]]
        1 1 1 1 1 1 0 0).1[0]? :=
  tnt_block_inner_attention_local idBlockParams [[[1]], [[2]]] [[[1]], [[3]]]
    [[[5]]] [[[7]]] 1 1 1 1 1 1 0 0 0 0 (by decide)

/-- Counterexample to C6 as stated: `patch_embed` does not add the learned
position table directly to the second normalization's output — the
`PatchEncoder` it ends with applies its own `Dense` projection first.  With
every kernel the identity except that projection (which doubles each feature)
and a zero position table, the code's result differs from the spec's
description on the one-element input `[[[1]]]`. -/
theorem patch_embed_spec_counterexample :
    patch_embed_data doublingPatchParams [[[1]]] 1 1 1 1 0 ≠
      patch_embed_specModel doublingPatchParams [[[1]]] 1 1 1 1 0 := by
  simp [patch_embed_data, patch_embed_specModel, reshape3, chunks, chunksAux,
    map2, PatchEncoder_call, add2, doublingPatchParams]

/-- C6 (amended): `patch_embed` computes its output by reshaping all pixel
vectors of a patch into one flattened vector, normalizing, projecting to
`outer_dim`, normalizing again, then applying the `PatchEncoder` — which adds
the learned per-patch position table elementwise to a further `Dense`
projection of the second normalization's output — followed by dropout; the
position table is added to that second projection, not to the normalization's
output directly, and the spec's description holds exactly when the
`PatchEncoder` projection is the identity. -/
theorem patch_embed_step_sequence (p : PatchEmbedParams) (pe : Tensor3)
    (np od id npx : ℕ) (pd : ℚ) :
    patch_embed_data p pe np od id npx pd =
      map2 (p.drop pd) (PatchEncoder_call p.enc_projection p.enc_position_table
        (map2 p.ln2 (map2 (p.dense od) (map2 p.ln1
          (reshape3 np (id * npx) pe))))) ∧
    (p.enc_projection = (fun v => v) →
      patch_embed_data p pe np od id npx pd =
        patch_embed_specModel p pe np od id npx pd) := by
  refine ⟨rfl, fun hp => ?_⟩
  simp [patch_embed_data, patch_embed_specModel, PatchEncoder_call, hp]

/-- Witness for C6 (amended) with identity kernels everywhere: the code's
`patch_embed` and the spec's description coincide when the `PatchEncoder`
projection is the identity. -/
theorem patch_embed_step_sequence_witness :
    patch_embed_data ⟨fun v => v, fun _ v => v, fun v => v, fun v => v, [[0]],
        fun _ v => v⟩ [[[1]]] 1 1 1 1 0 =
      patch_embed_specModel ⟨fun v => v, fun _ v => v, fun v => v, fun v => v,
        [[0]], fun _ v => v⟩ [[[1]]] 1 1 1 1 0 :=
  (patch_embed_step_sequence ⟨fun v => v, fun _ v => v, fun v => v, fun v => v,
    [[0]], fun _ v => v⟩ [[[1]]] 1 1 1 1 0).2 rfl

/-- C8: shape-inconsistent configurations fail at graph-build time and the
failure propagates to the caller unmasked.  Concretely, building the model
with patch size (7,7) — which does not divide the 96×96 image — fails
(`none`); and none of the core functions recovers from a failing sub-step: a
failing fold reshape makes `patch_embed` fail, a failing `pixel_embed` or
`patch_embed` makes `get_model` fail, and a rank error on the patch embedding
makes `transformer_in_transformer_block` fail. -/
theorem shape_error_propagation :
    get_model_shape 128 (96, 96) (7, 7) 64 32 5 4 4 = none ∧
    (∀ (pe : List ℕ) (np od id npx : ℕ),
      reshapeShape np (id * npx) pe = none →
      patch_embed_shape pe np od id npx = none) ∧
    (∀ (batch : ℕ) (isz psz : ℕ × ℕ) (od id nl mr st : ℕ),
      pixel_embed_shape [batch, isz.1, isz.2, 3] isz psz id st = none →
      get_model_shape batch isz psz od id nl mr st = none) ∧
    (∀ (batch : ℕ) (isz psz : ℕ × ℕ) (od id nl mr st : ℕ) (pe : List ℕ)
        (np : ℕ) (g : ℕ × ℕ),
      pixel_embed_shape [batch, isz.1, isz.2, 3] isz psz id st =
        some (pe, np, g) →
      patch_embed_shape pe np od id (g.1 * g.2) = none →
      get_model_shape batch isz psz od id nl mr st = none) ∧
    (∀ (pe pa : List ℕ) (od id npx mr : ℕ),
      shapeDim1 pa = none →
      transformer_in_transformer_block_shape pe pa od id npx mr = none) := by
  refine ⟨by decide, fun pe np od id npx h => ?_,
    fun batch isz psz od id nl mr st h => ?_,
    fun batch isz psz od id nl mr st pe np g h1 h2 => ?_,
    fun pe pa od id npx mr h => ?_⟩
  · simp [patch_embed_shape, h]
  · simp [get_model_shape, data_augmentation_shape, input_shape, h]
  · simp [get_model_shape, data_augmentation_shape, input_shape, h1, h2]
  · cases hi : tnt_inner_shape pe id mr <;>
      simp [transformer_in_transformer_block_shape, hi, h]

/-- Witness for C8: the concrete indivisible configuration fails to build, and
`patch_embed` fails (rather than recovering) on a concrete input whose fold
reshape is impossible. -/
theorem shape_error_propagation_witness :
    get_model_shape 128 (96, 96) (7, 7) 64 32 5 4 4 = none ∧
      patch_embed_shape [5] 3 1 1 1 = none :=
  ⟨shape_error_propagation.1,
    shape_error_propagation.2.1 [5] 3 1 1 1 (by decide)⟩

end TNT
